import Mathlib

/-!
Shallow embedding of the core logic of the ADB-Gripper repository
(src/adb_manager.py and the batch-uninstall orchestrator of src/main_app.py),
together with proofs checking the natural-language specification against it.

The external `adb` subprocess is modelled as an oracle
`runner : List String → RunResult` returning the `(stdout, stderr, returncode)`
triple that `AdbManager._run_adb_command` hands back to its callers.  Status
messages sent to the GUI callback by the function bodies under study are
collected in explicit lists of `(message, level)` pairs.
-/

namespace AdbGripper

/-- Characters treated as whitespace by the Python `str.strip()` / `str.split()`
calls appearing in `adb_manager.py` (ASCII whitespace). -/
def isPySpace (c : Char) : Bool :=
  c = ' ' || c = '\t' || c = '\n' || c = '\r' || c = '\x0b' || c = '\x0c'

/-- Helper of `pyStrip`: remove the trailing characters satisfying `p`. -/
def dropTrailing (p : Char → Bool) : List Char → List Char
  | [] => []
  | c :: cs =>
    match dropTrailing p cs with
    | [] => if p c then [] else [c]
    | c2 :: cs2 => c :: c2 :: cs2

/-- Python `s.strip()`: remove leading and trailing whitespace. -/
def pyStrip (s : String) : String :=
  ⟨dropTrailing isPySpace (s.data.dropWhile isPySpace)⟩

/-- An apostrophe character, written without an apostrophe literal. -/
def squote : Char := Char.ofNat 39

/-- The three characters of the strip set used by
`stdout.strip().strip("\x27\"\r")` in `get_device_info`. -/
def quoteChars : List Char := [squote, '"', '\r']

/-- Python `s.strip(chars)`: remove leading and trailing characters drawn from
`cset`. -/
def pyStripChars (cset : List Char) (s : String) : String :=
  ⟨dropTrailing (fun c => cset.contains c) (s.data.dropWhile (fun c => cset.contains c))⟩

/-- Python `s.lower()` (ASCII case folding, which is all adb output needs). -/
def pyLower (s : String) : String := ⟨s.data.map Char.toLower⟩

/-- Helper of `strIn` on the underlying character lists. -/
def strInAux (needle : List Char) : List Char → Bool
  | [] => needle.isEmpty
  | c :: cs => needle.isPrefixOf (c :: cs) || strInAux needle cs

/-- Python substring test `needle in hay`. -/
def strIn (needle hay : String) : Bool := strInAux needle.data hay.data

/-- Python `s.startswith(p)`. -/
def startsWith (p s : String) : Bool := p.data.isPrefixOf s.data

/-- Helper of `pySplitChar`. -/
def splitCharAux (sep : Char) (acc : List Char) : List Char → List String
  | [] => [⟨acc.reverse⟩]
  | c :: cs =>
    if c = sep then ⟨acc.reverse⟩ :: splitCharAux sep [] cs
    else splitCharAux sep (c :: acc) cs

/-- Python `s.split(sep)` for a one-character separator. -/
def pySplitChar (sep : Char) (s : String) : List String := splitCharAux sep [] s.data

/-- Line-break characters recognized by Python `str.splitlines`. -/
def isLineBreak (c : Char) : Bool :=
  c = '\n' || c = '\r' || c = '\x0b' || c = '\x0c' ||
  c = '\x1c' || c = '\x1d' || c = '\x1e' || c = '\x85' || c = '\u2028' || c = '\u2029'

/-- Helper of `pySplitlines`. -/
def splitlinesAux (acc : List Char) : List Char → List String
  | [] => if acc.isEmpty then [] else [⟨acc.reverse⟩]
  | '\r' :: '\n' :: cs => ⟨acc.reverse⟩ :: splitlinesAux [] cs
  | c :: cs =>
    if isLineBreak c then ⟨acc.reverse⟩ :: splitlinesAux [] cs
    else splitlinesAux (c :: acc) cs

/-- Python `s.splitlines()`. -/
def pySplitlines (s : String) : List String := splitlinesAux [] s.data

/-- Python `line.split(maxsplit=2)`: split on runs of whitespace into at most
three fields, the third keeping its internal and trailing whitespace. -/
def splitMax2 (s : String) : List String :=
  let cs0 := s.data.dropWhile isPySpace
  if cs0.isEmpty then []
  else
    let t1 : String := ⟨cs0.takeWhile (fun c => !isPySpace c)⟩
    let r1 := (cs0.dropWhile (fun c => !isPySpace c)).dropWhile isPySpace
    if r1.isEmpty then [t1]
    else
      let t2 : String := ⟨r1.takeWhile (fun c => !isPySpace c)⟩
      let r2 := (r1.dropWhile (fun c => !isPySpace c)).dropWhile isPySpace
      if r2.isEmpty then [t1, t2] else [t1, t2, ⟨r2⟩]

/-- Python `line.split(sep, 1)[1]` for a line known to contain `sep`:
everything after the first occurrence of `sep`. -/
def afterFirst (sep : Char) (s : String) : String :=
  ⟨(s.data.dropWhile (fun c => c != sep)).drop 1⟩

/-- Python `os.path.basename` on forward-slash paths: the part after the last
slash (used only inside status-message text). -/
def basename (p : String) : String :=
  ⟨(p.data.reverse.takeWhile (fun c => c != '/')).reverse⟩

/-- Result triple of `AdbManager._run_adb_command` (src/adb_manager.py lines
50-112): `(stdout, stderr, returncode)`.  `stdout` is `none` exactly on the
exception paths, which all return `returncode = 1`; on every branch that
reaches a caller with `returncode = 0` the callers read `stdout` as a string,
so they are embedded through `RunResult.out`. -/
structure RunResult where
  stdout : Option String
  stderr : String
  returncode : Int
deriving Repr, DecidableEq

/-- The stdout string a caller observes (empty on the `none` failure paths). -/
def RunResult.out (r : RunResult) : String := r.stdout.getD ""

/-- Embedding of `AdbManager.install_apk` (src/adb_manager.py lines 472-507).
`adbAvailable` models `self.adb_available`, `fileExists` models
`os.path.exists(apk_path)`, and `r` is the `_run_adb_command` result of
`adb -s serial install -r apk_path`.  Returns the boolean result together
with the status messages emitted by this function body. -/
def install_apk (adbAvailable : Bool) (serial apk_path : String) (fileExists : Bool)
    (r : RunResult) : Bool × List (String × String) :=
  if !adbAvailable then (false, [])
  else if serial = "" ∨ apk_path = "" then
    (false, [("Error: Device and APK path must be specified for installation.", "error")])
  else if !fileExists then
    (false, [("Error: APK file not found at " ++ apk_path, "error")])
  else
    let msg0 := ("Sending command: Installing " ++ basename apk_path ++ " on " ++ serial ++ "...", "info")
    if r.returncode = 0 ∧ strIn "success" (pyLower r.out) = true then
      (true, [msg0, ("Successfully installed " ++ basename apk_path ++ ".", "info")])
    else if r.returncode = 0 ∧ strIn "failure" (pyLower r.out) = true then
      (false, [msg0, ("Installation reported failure: " ++ pyStrip r.out, "error")])
    else
      (false, [msg0])

/-- Embedding of `AdbManager.connect_device` (src/adb_manager.py lines
188-229), with `r` the `_run_adb_command` result of `adb connect address`. -/
def connect_device (adbAvailable : Bool) (address : String) (r : RunResult) :
    Bool × List (String × String) :=
  if !adbAvailable then (false, [])
  else if address = "" then
    (false, [("Error: IP address is empty for connection.", "error")])
  else
    let msg0 := ("Attempting to connect to " ++ address ++ "...", "info")
    if r.returncode = 0 then
      let low := pyLower r.out
      if strIn "connected to" low = true ∨ strIn "already connected" low = true then
        (true, [msg0])
      else if strIn " connection refused" low = true then
        (false, [msg0, ("Connection failed for " ++ address ++
          ": Connection refused. Is ADB over TCP enabled on the device?", "error")])
      else if strIn " unable to connect" low = true ∨ strIn "failed to connect" low = true then
        (false, [msg0, ("Connection failed for " ++ address ++ ": " ++ pyStrip r.out, "error")])
      else
        (true, [msg0, ("Connect command successful for " ++ address ++
          ", but output was unexpected: " ++ pyStrip r.out, "warning")])
    else (false, [msg0])

/-- The fixed set of modes accepted by `reboot_device`. -/
def validModes : List String := ["", "recovery", "bootloader", "sideload", "sideload-auto-reboot"]

/-- Message text of the invalid-mode branch of `reboot_device`
(the Python f-string with the joined mode list). -/
def invalidModeMsg (mode : String) : String :=
  "Error: Invalid reboot mode \x27" ++ mode ++
    "\x27. Valid modes are: , recovery, bootloader, sideload, sideload-auto-reboot."

/-- Outcome of one `reboot_device` call: boolean result, status messages
emitted by the function body, and the commands handed to the process runner. -/
structure RebootCall where
  ret : Bool
  msgs : List (String × String)
  calls : List (List String)
deriving Repr, DecidableEq

/-- Embedding of `AdbManager.reboot_device` (src/adb_manager.py lines 398-438).
The `runner` oracle is `_run_adb_command`; `calls` records every command that
reaches it from this function. -/
def reboot_device (adbAvailable : Bool) (serial mode : String)
    (runner : List String → RunResult) : RebootCall :=
  if !adbAvailable then ⟨false, [], []⟩
  else if serial = "" then
    ⟨false, [("Error: No device selected to reboot.", "error")], []⟩
  else if !(validModes.contains mode) then
    ⟨false, [(invalidModeMsg mode, "error")], []⟩
  else
    let command := ["adb", "-s", serial, "reboot"] ++ (if mode = "" then [] else [mode])
    let msg0 :=
      if mode = "" then
        ("Sending command: Rebooting device " ++ serial ++ " normally...", "info")
      else
        ("Sending command: Rebooting device " ++ serial ++ " to " ++ mode ++ "...", "info")
    let r := runner command
    if r.returncode = 0 ∧ pyStrip r.stderr = "" then
      ⟨true, [msg0, ("Reboot command sent successfully to " ++ serial ++ ".", "info")], [command]⟩
    else ⟨false, [msg0], [command]⟩

/-- One parsed line of `adb devices -l` output. -/
structure DeviceRec where
  serial : String
  state : String
  description : String
deriving Repr, DecidableEq

/-- Header handling of `list_devices` (lines 151-154): strip the whole output,
split on newlines, and drop the first line when it contains the header text. -/
def deviceLines (stdout : String) : List String :=
  let lines := pySplitChar '\n' (pyStrip stdout)
  match lines with
  | [] => []
  | l0 :: rest => if strIn "List of devices attached" l0 = true then rest else l0 :: rest

/-- Per-line loop of `list_devices` (lines 156-177): parsed records plus the
warning messages for lines with fewer than two fields. -/
def parseDeviceList : List String → List DeviceRec × List String
  | [] => ([], [])
  | l :: ls =>
    let line := pyStrip l
    let rest := parseDeviceList ls
    if line = "" then rest
    else
      let parts := splitMax2 line
      if parts.length ≥ 2 then
        (⟨parts.getD 0 "", parts.getD 1 "", parts.getD 2 ""⟩ :: rest.1, rest.2)
      else
        (rest.1, ("Warning: Could not fully parse device line: \x27" ++ line ++ "\x27") :: rest.2)

/-- Embedding of `AdbManager.list_devices` (src/adb_manager.py lines 130-186),
with `r` the `_run_adb_command` result of `adb devices -l`. -/
def list_devices (adbAvailable : Bool) (r : RunResult) : List DeviceRec :=
  if !adbAvailable then []
  else if r.returncode = 0 ∧ r.out ≠ "" then (parseDeviceList (deviceLines r.out)).1
  else []

/-- The `adb -s serial shell getprop prop` command built by `get_device_info`. -/
def getpropCmd (serial prop : String) : List String :=
  ["adb", "-s", serial, "shell", "getprop", prop]

/-- The `adb -s serial shell dumpsys battery` command of `get_device_info`. -/
def batteryCmd (serial : String) : List String :=
  ["adb", "-s", serial, "shell", "dumpsys", "battery"]

/-- One property probe of `get_device_info` (the pattern of lines 285-292 and
341-347): run `getprop`, and on a zero exit with truthy stdout strip
whitespace and surrounding quote characters; only a non-empty final value
counts as fetched. -/
def fetchProp (runner : List String → RunResult) (serial prop : String) : Option String :=
  let r := runner (getpropCmd serial prop)
  if r.returncode = 0 ∧ r.out ≠ "" then
    let v := pyStripChars quoteChars (pyStrip r.out)
    if v ≠ "" then some v else none
  else none

/-- Battery-level scan of `get_device_info` (lines 317-328): the first stripped
line starting with `level:` yields `line.split(":")[1].strip()` with a percent
sign appended; later lines are not examined. -/
def batteryScan : List String → Option String
  | [] => none
  | l :: ls =>
    let line := pyStrip l
    if startsWith "level:" line = true then
      some (pyStrip ((pySplitChar ':' line).getD 1 "") ++ "%")
    else batteryScan ls

/-- The `prop_names_to_try` preference list of `get_device_info`
(lines 262-277). -/
def prop_names_to_try : List String :=
  ["ro.product.marketname", "ro.product.vendor.marketname", "ro.product.odm.marketname",
   "ro.product.system_dlkm.marketname", "ro.product.bootimage.marketname",
   "ro.product.display", "ro.product.name", "ro.product.device", "ro.product.model",
   "ro.vendor.product.model", "ro.system.product.model", "ro.system_ext.product.model",
   "ro.odm.product.model"]

/-- The two properties skipped inside the candidate loop (line 338). -/
def skipProps : List String := ["ro.product.model", "ro.build.version.release"]

/-- Candidate qualification test of the loop body (lines 352-362): when the
model is among the fetched values and the candidate equals it, the candidate
is taken only for a marketname key; otherwise any non-empty value is taken. -/
def qualifies (modelOpt : Option String) (propName v : String) : Bool :=
  match modelOpt with
  | some m => if v = m then strIn "marketname" (pyLower propName) else true
  | none => true

/-- Candidate loop of `get_device_info` (lines 336-362), with the accumulator
`best` playing `best_display_name_found`. -/
def bestLoop (modelOpt : Option String) (fetch : String → Option String) :
    List String → Option String → Option String
  | [], best => best
  | p :: ps, best =>
    if skipProps.contains p then bestLoop modelOpt fetch ps best
    else
      match fetch p with
      | some v =>
        bestLoop modelOpt fetch ps
          (if best = none ∧ qualifies modelOpt p v = true then some v else best)
      | none => bestLoop modelOpt fetch ps best

/-- First-match reading of the candidate loop: the first non-skipped candidate
in preference order whose fetched value is non-empty and qualifies. -/
def firstQualifying (modelOpt : Option String) (fetch : String → Option String) :
    List String → Option String
  | [] => none
  | p :: ps =>
    if skipProps.contains p then firstQualifying modelOpt fetch ps
    else
      match fetch p with
      | some v => if qualifies modelOpt p v = true then some v
                  else firstQualifying modelOpt fetch ps
      | none => firstQualifying modelOpt fetch ps

/-- The info record built by `get_device_info` (lines 252-258). -/
structure DeviceInfo where
  serial : String
  model : String
  version : String
  display_name : String
  battery_level : String
deriving Repr, DecidableEq

/-- Embedding of `AdbManager.get_device_info` (src/adb_manager.py lines
231-393): essential model/version probes, battery probe, candidate loop,
display-name finalization, and the null result when both essential probes
failed. -/
def get_device_info (adbAvailable : Bool) (serial : String)
    (runner : List String → RunResult) : Option DeviceInfo :=
  if !adbAvailable then none
  else if serial = "" then none
  else
    let modelOpt := fetchProp runner serial "ro.product.model"
    let versionOpt := fetchProp runner serial "ro.build.version.release"
    let rBatt := runner (batteryCmd serial)
    let battery :=
      if rBatt.returncode = 0 ∧ rBatt.out ≠ "" then
        (batteryScan (pySplitlines rBatt.out)).getD "N/A"
      else "N/A"
    let best := bestLoop modelOpt (fetchProp runner serial) prop_names_to_try none
    let model := modelOpt.getD "N/A"
    let version := versionOpt.getD "N/A"
    let display :=
      match best with
      | some b =>
        if b ≠ "N/A" ∧ b ≠ "Error" ∧ b ≠ "" then b
        else if model ≠ "N/A" ∧ model ≠ "Error" then model
        else serial
      | none => if model ≠ "N/A" ∧ model ≠ "Error" then model else serial
    if modelOpt = none ∧ versionOpt = none then none
    else some ⟨serial, model, version, display, battery⟩

/-- The details record built by `get_package_details` (lines 657-666). -/
structure PackageDetails where
  package_name : String
  version_name : String
  version_code : String
  installer : String
  first_install_time : String
  last_update_time : String
  uid : String
  permissions : List String
deriving Repr, DecidableEq

/-- The fully defaulted details record. -/
def defaultDetails (package_name : String) : PackageDetails :=
  ⟨package_name, "Unknown", "Unknown", "Unknown", "Unknown", "Unknown", "Unknown", []⟩

/-- Line loop of `get_package_details` (lines 669-691), threading the
`reading_perms` flag `rp`. -/
def detailsLoop : List String → Bool → PackageDetails → PackageDetails
  | [], _, d => d
  | l :: ls, rp, d =>
    let line := pyStrip l
    if startsWith "versionName=" line = true then
      detailsLoop ls rp { d with version_name := afterFirst '=' line }
    else if startsWith "versionCode=" line = true then
      detailsLoop ls rp
        { d with version_code := ⟨(afterFirst '=' line).data.takeWhile (fun c => c != ' ')⟩ }
    else if startsWith "installerPackageName=" line = true then
      detailsLoop ls rp { d with installer := afterFirst '=' line }
    else if startsWith "firstInstallTime=" line = true then
      detailsLoop ls rp { d with first_install_time := afterFirst '=' line }
    else if startsWith "lastUpdateTime=" line = true then
      detailsLoop ls rp { d with last_update_time := afterFirst '=' line }
    else if startsWith "userId=" line = true then
      detailsLoop ls rp { d with uid := afterFirst '=' line }
    else if startsWith "requested permissions:" line = true then
      detailsLoop ls true d
    else if rp then
      if startsWith "install permissions:" line = true ∨
         startsWith "runtime permissions:" line = true ∨ line = "" then
        detailsLoop ls false d
      else detailsLoop ls rp { d with permissions := d.permissions ++ [line] }
    else detailsLoop ls rp d

/-- A stripped dump line that some branch of `detailsLoop` reacts to. -/
def recognizedDetail (line : String) : Bool :=
  startsWith "versionName=" line || startsWith "versionCode=" line ||
  startsWith "installerPackageName=" line || startsWith "firstInstallTime=" line ||
  startsWith "lastUpdateTime=" line || startsWith "userId=" line ||
  startsWith "requested permissions:" line

/-- Embedding of `AdbManager.get_package_details` (src/adb_manager.py lines
642-693), with `r` the `_run_adb_command` result of
`adb -s serial shell dumpsys package package_name`. -/
def get_package_details (adbAvailable : Bool) (serial package_name : String)
    (r : RunResult) : Option PackageDetails :=
  if !adbAvailable then none
  else if serial = "" ∨ package_name = "" then none
  else if r.returncode = 0 ∧ r.out ≠ "" then
    some (detailsLoop (pySplitlines r.out) false (defaultDetails package_name))
  else some (defaultDetails package_name)

/-- A device-mutating adb action issued by the batch uninstall orchestrator. -/
inductive AdbAction where
  | uninstallAct (serial package_name : String)
  | disableAct (serial package_name : String)
deriving Repr, DecidableEq

/-- Python dict assignment `results[k] = v`: replace the value at an existing
key, otherwise append a new entry. -/
def dictInsert : List (String × String) → String → String → List (String × String)
  | [], k, v => [(k, v)]
  | (k0, v0) :: es, k, v =>
    if k0 = k then (k0, v) :: es else (k0, v0) :: dictInsert es k v

/-- Loop of `_perform_uninstall_threaded` (src/main_app.py lines 1022-1059):
`u serial p` and `d serial p` are the boolean results of
`uninstall_package` and `disable_package`.  Returns the `results` dict and
the ordered sequence of device-mutating actions performed. -/
def uninstallBatchLoop (u d : String → String → Bool) (serial : String) :
    List String → List (String × String) → List (String × String) × List AdbAction
  | [], results => (results, [])
  | p :: ps, results =>
    if u serial p = true then
      let rest := uninstallBatchLoop u d serial ps (dictInsert results p "success")
      (rest.1, .uninstallAct serial p :: rest.2)
    else if d serial p = true then
      let rest := uninstallBatchLoop u d serial ps (dictInsert results p "disabled")
      (rest.1, .uninstallAct serial p :: .disableAct serial p :: rest.2)
    else
      let rest := uninstallBatchLoop u d serial ps (dictInsert results p "failed")
      (rest.1, .uninstallAct serial p :: .disableAct serial p :: rest.2)

/-- Embedding of `_perform_uninstall_threaded` (src/main_app.py lines
1022-1059): the batch starts from an empty `results` dict. -/
def perform_uninstall_threaded (u d : String → String → Bool) (serial : String)
    (packages_to_uninstall : List String) : List (String × String) × List AdbAction :=
  uninstallBatchLoop u d serial packages_to_uninstall []

/-- The expected per-target action sequence: uninstall first, disable only
after a failed uninstall. -/
def expectedTrace (u : String → String → Bool) (serial : String)
    (pkgs : List String) : List AdbAction :=
  pkgs.flatMap (fun p =>
    if u serial p = true then [AdbAction.uninstallAct serial p]
    else [AdbAction.uninstallAct serial p, AdbAction.disableAct serial p])

/-- Names of the methods defined in the class body of `AdbManager`, transcribed
from the class-level `def` statements of src/adb_manager.py.  The
`def stop_logcat(self)` at line 751 is indented inside the body of
`start_logcat` (one extra level), so it defines a local function of that call
frame and is not a class attribute. -/
def adbManagerClassMethods : List String :=
  ["__init__", "_is_adb_available", "_run_adb_command", "_update_status",
   "list_devices", "connect_device", "get_device_info", "reboot_device",
   "power_off_device", "install_apk", "list_packages", "uninstall_package",
   "disable_package", "get_package_details", "start_logcat"]

/-- Instance attributes assigned in `AdbManager.__init__` (lines 15-31);
Python attribute lookup consults these and then the class methods. -/
def adbManagerInstanceAttrs : List String :=
  ["status_callback", "adb_available", "logcat_process", "logcat_thread",
   "_stop_logcat_event"]

/-- Python attribute lookup `self.name` on an `AdbManager` object. -/
def adbManagerHasAttr (name : String) : Bool :=
  adbManagerInstanceAttrs.contains name || adbManagerClassMethods.contains name

/-- Control flow at the head of `start_logcat` (lines 707-708): with an active
logcat process the method evaluates `self.stop_logcat()`, which must resolve
the attribute `stop_logcat` before anything else happens; an unresolvable
attribute raises `AttributeError`, modelled as `Except.error`.  `Except.ok b`
records whether the previous stream was stopped before continuing. -/
def start_logcat_entry (processActive : Bool) : Except String Bool :=
  if processActive then
    if adbManagerHasAttr "stop_logcat" = true then Except.ok true
    else Except.error "AttributeError: stop_logcat"
  else Except.ok false

/-! ## C3: logcat stop sequence -/

/-- C3: the claim says stopping the log stream signals intent, terminates the
child, waits about a second and force-kills on timeout, and that starting a
new stream first fully stops the previous one.  The code cannot do either:
`stop_logcat` is defined one indentation level too deep, inside the body of
`start_logcat`, so `AdbManager` has no `stop_logcat` attribute, and the
`self.stop_logcat()` call that `start_logcat` makes when a process is already
active raises `AttributeError` instead of stopping the old stream. -/
theorem C3_stop_logcat_attribute_error :
    adbManagerHasAttr "stop_logcat" = false ∧
    start_logcat_entry true = Except.error "AttributeError: stop_logcat" := by
  exact ⟨by decide, by rfl⟩

/-! ## C2: install result classification -/

/-- C2 counterexample: a zero exit code whose output `ok` contains neither the
success nor the failure marker makes `install_apk` return failure, refuting
the claimed success-by-default for marker-free zero-exit results. -/
theorem C2_install_counterexample :
    (install_apk true "emulator-5554" "/tmp/app.apk" true ⟨some "ok", "", 0⟩).1 = false ∧
    strIn "success" (pyLower "ok") = false ∧
    strIn "failure" (pyLower "ok") = false := by
  exact ⟨by decide, by decide, by decide⟩

/-- C2 (amended): on a zero exit code, `install_apk` returns success exactly
when the output contains the success marker (case-insensitively); a
failure marker without a success marker yields failure with a distinct
installation-failure error message; with neither marker the call still fails,
emitting only the informational send message — the zero exit code is not
authoritative. -/
theorem C2_install_amended (serial apk_path : String) (r : RunResult)
    (hs : serial ≠ "") (hp : apk_path ≠ "") (hrc : r.returncode = 0) :
    (strIn "success" (pyLower r.out) = true →
      (install_apk true serial apk_path true r).1 = true) ∧
    (strIn "success" (pyLower r.out) = false →
      (install_apk true serial apk_path true r).1 = false) ∧
    (strIn "success" (pyLower r.out) = false → strIn "failure" (pyLower r.out) = true →
      (install_apk true serial apk_path true r).2 =
        [("Sending command: Installing " ++ basename apk_path ++ " on " ++ serial ++ "...", "info"),
         ("Installation reported failure: " ++ pyStrip r.out, "error")]) ∧
    (strIn "success" (pyLower r.out) = false → strIn "failure" (pyLower r.out) = false →
      (install_apk true serial apk_path true r).2 =
        [("Sending command: Installing " ++ basename apk_path ++ " on " ++ serial ++ "...", "info")]) := by
  refine ⟨fun h1 => ?_, fun h1 => ?_, fun h1 h2 => ?_, fun h1 h2 => ?_⟩
  · simp [install_apk, hs, hp, hrc, h1]
  · simp [install_apk, hs, hp, hrc, h1]
    split <;> simp
  · simp [install_apk, hs, hp, hrc, h1, h2]
  · simp [install_apk, hs, hp, hrc, h1, h2]

/-- C2 witness: a concrete application of the amended theorem. -/
theorem C2_install_amended_witness :
    (("emulator-5554" : String) ≠ "" ∧ ("/tmp/app.apk" : String) ≠ "" ∧
      (RunResult.mk (some "Success") "" 0).returncode = 0) ∧
    ((strIn "success" (pyLower (RunResult.mk (some "Success") "" 0).out) = true →
      (install_apk true "emulator-5554" "/tmp/app.apk" true (RunResult.mk (some "Success") "" 0)).1 = true) ∧
     (strIn "success" (pyLower (RunResult.mk (some "Success") "" 0).out) = false →
      (install_apk true "emulator-5554" "/tmp/app.apk" true (RunResult.mk (some "Success") "" 0)).1 = false) ∧
     (strIn "success" (pyLower (RunResult.mk (some "Success") "" 0).out) = false →
      strIn "failure" (pyLower (RunResult.mk (some "Success") "" 0).out) = true →
      (install_apk true "emulator-5554" "/tmp/app.apk" true (RunResult.mk (some "Success") "" 0)).2 =
        [("Sending command: Installing " ++ basename "/tmp/app.apk" ++ " on " ++ "emulator-5554" ++ "...", "info"),
         ("Installation reported failure: " ++ pyStrip (RunResult.mk (some "Success") "" 0).out, "error")]) ∧
     (strIn "success" (pyLower (RunResult.mk (some "Success") "" 0).out) = false →
      strIn "failure" (pyLower (RunResult.mk (some "Success") "" 0).out) = false →
      (install_apk true "emulator-5554" "/tmp/app.apk" true (RunResult.mk (some "Success") "" 0)).2 =
        [("Sending command: Installing " ++ basename "/tmp/app.apk" ++ " on " ++ "emulator-5554" ++ "...", "info")])) :=
  ⟨⟨by decide, by decide, by decide⟩,
   C2_install_amended "emulator-5554" "/tmp/app.apk" (RunResult.mk (some "Success") "" 0)
     (by decide) (by decide) (by decide)⟩

/-! ## C4: reboot mode validation -/

/-- C4 counterexample: with an empty serial and the invalid mode, the call does
return `False` and spawns nothing, but the error it reports is the
no-device-selected message, not the invalid-mode message the claim promises
for every serial. -/
theorem C4_reboot_counterexample :
    (reboot_device true "" "invalid-mode" (fun _ => ⟨some "", "", 0⟩)).ret = false ∧
    (reboot_device true "" "invalid-mode" (fun _ => ⟨some "", "", 0⟩)).calls = [] ∧
    (reboot_device true "" "invalid-mode" (fun _ => ⟨some "", "", 0⟩)).msgs =
      [("Error: No device selected to reboot.", "error")] ∧
    (invalidModeMsg "invalid-mode", "error") ∉
      (reboot_device true "" "invalid-mode" (fun _ => ⟨some "", "", 0⟩)).msgs := by
  exact ⟨by decide, by decide, by decide, by decide⟩

/-- C4 (amended): for every mode outside the valid set, `reboot_device`
returns `False` and passes no command to the process runner; the local
invalid-mode error message is reported provided the tool is available and a
device is selected (an empty serial is caught earlier by the
no-device-selected check, and an unavailable tool returns silently). -/
theorem C4_reboot_amended (adbAvailable : Bool) (serial mode : String)
    (runner : List String → RunResult) (hm : mode ∉ validModes) :
    (reboot_device adbAvailable serial mode runner).ret = false ∧
    (reboot_device adbAvailable serial mode runner).calls = [] ∧
    (adbAvailable = true → serial ≠ "" →
      (reboot_device adbAvailable serial mode runner).msgs =
        [(invalidModeMsg mode, "error")]) := by
  have hc : validModes.contains mode = false := by
    simpa using hm
  cases adbAvailable with
  | false => simp [reboot_device]
  | true =>
    by_cases hs : serial = "" <;>
      simp [reboot_device, hs, hc, hm]

/-- C4 witness: a concrete application of the amended theorem. -/
theorem C4_reboot_amended_witness :
    ("invalid-mode" ∉ validModes) ∧
    ((reboot_device true "emulator-5554" "invalid-mode" (fun _ => ⟨some "", "", 0⟩)).ret = false ∧
     (reboot_device true "emulator-5554" "invalid-mode" (fun _ => ⟨some "", "", 0⟩)).calls = [] ∧
     (true = true → ("emulator-5554" : String) ≠ "" →
       (reboot_device true "emulator-5554" "invalid-mode" (fun _ => ⟨some "", "", 0⟩)).msgs =
         [(invalidModeMsg "invalid-mode", "error")])) :=
  ⟨by decide,
   C4_reboot_amended true "emulator-5554" "invalid-mode" (fun _ => ⟨some "", "", 0⟩) (by decide)⟩

/-! ## C8: connect result classification -/

/-- C8 counterexample: a zero-exit output that contains `connection refused`
without a leading space (the output starts with it) is not matched by the
code, whose marker is the string with a leading space, so the call is treated
as success with a warning rather than as the explicit failure the claim
requires. -/
theorem C8_connect_counterexample :
    (connect_device true "192.168.1.10:5555" ⟨some "connection refused", "", 0⟩).1 = true ∧
    strIn "connection refused" (pyLower "connection refused") = true := by
  exact ⟨by decide, by decide⟩

/-- C8 (amended): the zero-exit classification of `connect_device`, with the
markers exactly as the code spells them: `connected to` / `already connected`
give success; a leading-space ` connection refused` gives failure with the
distinct refused message; a leading-space ` unable to connect` or
`failed to connect` gives failure; anything else is success with an
unexpected-output warning; a non-zero exit always fails. -/
theorem C8_connect_amended (address : String) (r : RunResult) (ha : address ≠ "") :
    (r.returncode = 0 →
      (strIn "connected to" (pyLower r.out) = true ∨
       strIn "already connected" (pyLower r.out) = true) →
      (connect_device true address r).1 = true) ∧
    (r.returncode = 0 →
      strIn "connected to" (pyLower r.out) = false →
      strIn "already connected" (pyLower r.out) = false →
      strIn " connection refused" (pyLower r.out) = true →
      (connect_device true address r).1 = false ∧
      ("Connection failed for " ++ address ++
        ": Connection refused. Is ADB over TCP enabled on the device?", "error") ∈
        (connect_device true address r).2) ∧
    (r.returncode = 0 →
      strIn "connected to" (pyLower r.out) = false →
      strIn "already connected" (pyLower r.out) = false →
      strIn " connection refused" (pyLower r.out) = false →
      (strIn " unable to connect" (pyLower r.out) = true ∨
       strIn "failed to connect" (pyLower r.out) = true) →
      (connect_device true address r).1 = false) ∧
    (r.returncode = 0 →
      strIn "connected to" (pyLower r.out) = false →
      strIn "already connected" (pyLower r.out) = false →
      strIn " connection refused" (pyLower r.out) = false →
      strIn " unable to connect" (pyLower r.out) = false →
      strIn "failed to connect" (pyLower r.out) = false →
      (connect_device true address r).1 = true ∧
      ("Connect command successful for " ++ address ++
        ", but output was unexpected: " ++ pyStrip r.out, "warning") ∈
        (connect_device true address r).2) ∧
    (r.returncode ≠ 0 → (connect_device true address r).1 = false) := by
  refine ⟨fun h0 h1 => ?_, fun h0 h1 h2 h3 => ?_, fun h0 h1 h2 h3 h4 => ?_,
    fun h0 h1 h2 h3 h4 h5 => ?_, fun h0 => ?_⟩
  · rcases h1 with h1 | h1 <;> simp [connect_device, ha, h0, h1]
  · simp [connect_device, ha, h0, h1, h2, h3]
  · rcases h4 with h4 | h4 <;> simp [connect_device, ha, h0, h1, h2, h3, h4]
  · simp [connect_device, ha, h0, h1, h2, h3, h4, h5]
  · simp [connect_device, ha, h0]

/-- C8 witness: a concrete application of the amended theorem. -/
theorem C8_connect_amended_witness :
    (("192.168.1.10:5555" : String) ≠ "" ∧
      (RunResult.mk (some "connected to 192.168.1.10:5555") "" 0).returncode = 0 ∧
      strIn "connected to"
        (pyLower (RunResult.mk (some "connected to 192.168.1.10:5555") "" 0).out) = true) ∧
    (connect_device true "192.168.1.10:5555"
      (RunResult.mk (some "connected to 192.168.1.10:5555") "" 0)).1 = true :=
  ⟨⟨by decide, by decide, by decide⟩,
   (C8_connect_amended "192.168.1.10:5555"
      (RunResult.mk (some "connected to 192.168.1.10:5555") "" 0) (by decide)).1
     (by decide) (Or.inl (by decide))⟩

/-! ## C10: package details defaulting -/

/-- Helper for C10: the detail scanner leaves the record unchanged when no
stripped line is recognized by any of its branches. -/
theorem detailsLoop_unrecognized : ∀ (ls : List String) (d : PackageDetails),
    (∀ l ∈ ls, recognizedDetail (pyStrip l) = false) → detailsLoop ls false d = d := by
  intro ls
  induction ls with
  | nil => intro d _; rfl
  | cons l ls ih =>
    intro d h
    have hl := h l (by simp)
    have hrest : ∀ l2 ∈ ls, recognizedDetail (pyStrip l2) = false :=
      fun l2 hm => h l2 (by simp [hm])
    simp only [recognizedDetail, Bool.or_eq_false_iff] at hl
    obtain ⟨⟨⟨⟨⟨⟨h1, h2⟩, h3⟩, h4⟩, h5⟩, h6⟩, h7⟩ := hl
    simp only [detailsLoop, h1, h2, h3, h4, h5, h6, h7, if_false, Bool.false_eq_true,
      if_neg (fun hc => Bool.false_ne_true hc)]
    exact ih d hrest

/-- C10: with the tool available and non-empty serial and package name,
`get_package_details` never returns a null result; every failed run
(non-zero exit, timeout, exception or empty output) yields the fully
defaulted record, which is also exactly what a successful dump produces when
none of its stripped lines starts with a recognized prefix. -/
theorem C10_package_details (serial pkg : String) (r : RunResult)
    (hs : serial ≠ "") (hp : pkg ≠ "") :
    (get_package_details true serial pkg r).isSome = true ∧
    (r.returncode ≠ 0 ∨ r.out = "" →
      get_package_details true serial pkg r = some (defaultDetails pkg)) ∧
    ((∀ l ∈ pySplitlines r.out, recognizedDetail (pyStrip l) = false) →
      get_package_details true serial pkg r = some (defaultDetails pkg)) := by
  refine ⟨?_, ?_, ?_⟩
  · simp only [get_package_details]
    split <;> simp_all
    split <;> simp
  · intro h
    have hc : ¬(r.returncode = 0 ∧ r.out ≠ "") := by
      rcases h with h | h
      · exact fun hc => h hc.1
      · exact fun hc => hc.2 h
    simp [get_package_details, hs, hp, hc]
  · intro h
    by_cases hc : r.returncode = 0 ∧ r.out ≠ ""
    · simp [get_package_details, hs, hp, hc, detailsLoop_unrecognized _ _ h]
    · simp [get_package_details, hs, hp, hc]

/-- C10 witness: a concrete application at a failed run. -/
theorem C10_package_details_witness :
    (("emulator-5554" : String) ≠ "" ∧ ("com.example.app" : String) ≠ "") ∧
    ((get_package_details true "emulator-5554" "com.example.app"
        (RunResult.mk none "boom" 1)).isSome = true ∧
     ((RunResult.mk none "boom" 1).returncode ≠ 0 ∨ (RunResult.mk none "boom" 1).out = "" →
       get_package_details true "emulator-5554" "com.example.app" (RunResult.mk none "boom" 1) =
         some (defaultDetails "com.example.app")) ∧
     ((∀ l ∈ pySplitlines (RunResult.mk none "boom" 1).out,
         recognizedDetail (pyStrip l) = false) →
       get_package_details true "emulator-5554" "com.example.app" (RunResult.mk none "boom" 1) =
         some (defaultDetails "com.example.app"))) :=
  ⟨⟨by decide, by decide⟩,
   C10_package_details "emulator-5554" "com.example.app" (RunResult.mk none "boom" 1)
     (by decide) (by decide)⟩

/-! ## C1: batch uninstall orchestration -/

/-- Helper for C1: looking up the just-assigned key of a dict. -/
theorem lookup_dictInsert_self : ∀ (m : List (String × String)) (k v : String),
    (dictInsert m k v).lookup k = some v := by
  intro m k v
  induction m with
  | nil => simp [dictInsert, List.lookup]
  | cons e es ih =>
    obtain ⟨k0, v0⟩ := e
    by_cases h : k0 = k
    · simp [dictInsert, h, List.lookup]
    · have hb : (k == k0) = false := by simp [Ne.symm h]
      simp [dictInsert, h, List.lookup, hb, ih]

/-- Helper for C1: a dict assignment leaves other keys unchanged. -/
theorem lookup_dictInsert_ne : ∀ (m : List (String × String)) (k v t : String), t ≠ k →
    (dictInsert m k v).lookup t = m.lookup t := by
  intro m k v t ht
  have hb : (t == k) = false := by simp [ht]
  induction m with
  | nil => simp [dictInsert, List.lookup, hb]
  | cons e es ih =>
    obtain ⟨k0, v0⟩ := e
    by_cases h : k0 = k
    · subst h
      simp [dictInsert, List.lookup, hb]
    · simp [dictInsert, h, List.lookup, ih]

/-- Helper for C1: the results dict of the batch loop maps each processed
target to the outcome its uninstall/disable results dictate. -/
theorem uninstallBatchLoop_lookup (u d : String → String → Bool) (serial : String) :
    ∀ (pkgs : List String) (acc : List (String × String)) (t : String),
    (uninstallBatchLoop u d serial pkgs acc).1.lookup t =
      if t ∈ pkgs then
        some (if u serial t = true then "success"
              else if d serial t = true then "disabled" else "failed")
      else acc.lookup t := by
  intro pkgs
  induction pkgs with
  | nil => intro acc t; simp [uninstallBatchLoop]
  | cons p ps ih =>
    intro acc t
    have hstep : (uninstallBatchLoop u d serial (p :: ps) acc).1 =
        (uninstallBatchLoop u d serial ps
          (dictInsert acc p
            (if u serial p = true then "success"
             else if d serial p = true then "disabled" else "failed"))).1 := by
      by_cases h1 : u serial p = true
      · simp [uninstallBatchLoop, h1]
      · by_cases h2 : d serial p = true <;> simp [uninstallBatchLoop, h1, h2]
    rw [hstep, ih]
    by_cases hmem : t ∈ ps
    · simp [hmem]
    · by_cases hpt : t = p
      · subst hpt
        simp [hmem, lookup_dictInsert_self]
      · simp [hmem, hpt, lookup_dictInsert_ne _ _ _ _ hpt]

/-- Helper for C1: the action sequence of the batch loop does not depend on
the accumulated results and equals the expected uninstall-first trace. -/
theorem uninstallBatchLoop_trace (u d : String → String → Bool) (serial : String) :
    ∀ (pkgs : List String) (acc : List (String × String)),
    (uninstallBatchLoop u d serial pkgs acc).2 = expectedTrace u serial pkgs := by
  intro pkgs
  induction pkgs with
  | nil => intro acc; simp [uninstallBatchLoop, expectedTrace]
  | cons p ps ih =>
    intro acc
    by_cases h1 : u serial p = true
    · simp [uninstallBatchLoop, h1, expectedTrace, ih]
    · by_cases h2 : d serial p = true <;>
        simp [uninstallBatchLoop, h1, h2, expectedTrace, ih]

/-- C1: the batch uninstall processes the targets strictly sequentially in
input order, attempting uninstall first and disable only after a failed
uninstall (the whole action trace equals the expected one); each listed
target is mapped to exactly the outcome its results dictate — `success` when
uninstall succeeds, `disabled` when only disable succeeds, `failed` when
both fail; a target whose uninstall succeeds never sees a disable; and no
failure aborts the batch, every listed target receiving an outcome. -/
theorem C1_batch_uninstall (u d : String → String → Bool) (serial : String)
    (pkgs : List String) (t : String) (ht : t ∈ pkgs) :
    (perform_uninstall_threaded u d serial pkgs).1.lookup t =
      some (if u serial t = true then "success"
            else if d serial t = true then "disabled" else "failed") ∧
    (u serial t = true →
      AdbAction.disableAct serial t ∉ (perform_uninstall_threaded u d serial pkgs).2) ∧
    (perform_uninstall_threaded u d serial pkgs).2 = expectedTrace u serial pkgs := by
  refine ⟨?_, ?_, ?_⟩
  · simpa [perform_uninstall_threaded, ht] using
      uninstallBatchLoop_lookup u d serial pkgs [] t
  · intro hu hmem
    rw [perform_uninstall_threaded, uninstallBatchLoop_trace] at hmem
    simp only [expectedTrace, List.mem_flatMap] at hmem
    obtain ⟨p, _, hin⟩ := hmem
    by_cases h1 : u serial p = true
    · simp [h1] at hin
    · simp [h1] at hin
      exact h1 (hin ▸ hu)
  · rw [perform_uninstall_threaded, uninstallBatchLoop_trace]

/-- C1 witness: the spec's example batch `[A, B, C]` where A uninstalls, B
needs the disable fallback, and C fails both. -/
theorem C1_batch_uninstall_witness :
    ("B" ∈ (["A", "B", "C"] : List String)) ∧
    ((perform_uninstall_threaded (fun _ p => p == "A") (fun _ p => p == "B") "ser"
        ["A", "B", "C"]).1.lookup "B" =
      some (if (fun (_ p : String) => p == "A") "ser" "B" = true then "success"
            else if (fun (_ p : String) => p == "B") "ser" "B" = true then "disabled"
            else "failed") ∧
     ((fun (_ p : String) => p == "A") "ser" "B" = true →
       AdbAction.disableAct "ser" "B" ∉
         (perform_uninstall_threaded (fun _ p => p == "A") (fun _ p => p == "B") "ser"
           ["A", "B", "C"]).2) ∧
     (perform_uninstall_threaded (fun _ p => p == "A") (fun _ p => p == "B") "ser"
        ["A", "B", "C"]).2 =
       expectedTrace (fun _ p => p == "A") "ser" ["A", "B", "C"]) :=
  ⟨by decide,
   C1_batch_uninstall (fun _ p => p == "A") (fun _ p => p == "B") "ser"
     ["A", "B", "C"] "B" (by decide)⟩

/-! ## C5: device-list parsing -/

/-- Helper: a string built from a character list is empty exactly when the
list is. -/
theorem mk_eq_empty_iff (l : List Char) : (⟨l⟩ : String) = "" ↔ l = [] := by
  constructor
  · intro h
    have hd := congrArg String.data h
    simpa using hd
  · intro h
    subst h
    rfl

/-- Helper: a string whose data is known is that very string. -/
theorem eq_mk_of_data (s : String) (l : List Char) (h : s.data = l) : s = ⟨l⟩ := by
  obtain ⟨d⟩ := s
  simp only at h
  subst h
  rfl

/-- Helper: the head of a `dropWhile` result fails the predicate. -/
theorem dropWhile_head_false (p : Char → Bool) :
    ∀ (cs : List Char) (c : Char) (cs2 : List Char),
    cs.dropWhile p = c :: cs2 → p c = false := by
  intro cs
  induction cs with
  | nil => intro c cs2 h; simp [List.dropWhile] at h
  | cons a as ih =>
    intro c cs2 h
    rw [List.dropWhile_cons] at h
    by_cases hp : p a
    · rw [if_pos hp] at h
      exact ih c cs2 h
    · rw [if_neg hp] at h
      obtain ⟨rfl, -⟩ := List.cons.inj h
      simpa using hp

/-- Helper: `dropTrailing` keeps the head element whenever it keeps anything. -/
theorem dropTrailing_head (p : Char → Bool) (c : Char) (cs : List Char) :
    dropTrailing p (c :: cs) = [] ∨ ∃ cs2, dropTrailing p (c :: cs) = c :: cs2 := by
  cases h : dropTrailing p cs with
  | nil => by_cases hp : p c <;> simp [dropTrailing, h, hp]
  | cons c2 cs2 => simp [dropTrailing, h]

/-- Helper: a non-empty stripped string starts with a non-space character. -/
theorem pyStrip_head (s : String) (h : pyStrip s ≠ "") :
    ∃ c cs, (pyStrip s).data = c :: cs ∧ isPySpace c = false := by
  rcases hd : s.data.dropWhile isPySpace with _ | ⟨c, cs⟩
  · exfalso
    apply h
    simp [pyStrip, hd, dropTrailing, mk_eq_empty_iff]
  · have hc : isPySpace c = false := dropWhile_head_false isPySpace s.data c cs hd
    rcases dropTrailing_head isPySpace c cs with he | ⟨cs2, he⟩
    · exfalso
      apply h
      simp [pyStrip, hd, he, mk_eq_empty_iff]
    · exact ⟨c, cs2, by simp [pyStrip, hd, he], hc⟩

/-- Helper: splitting a list that starts with a non-space character yields
that character at the head of a non-empty first token. -/
theorem splitMax2_cons (c : Char) (cs : List Char) (hc : isPySpace c = false) :
    ∃ ts, splitMax2 ⟨c :: cs⟩ =
      (⟨c :: cs.takeWhile (fun x => !isPySpace x)⟩ : String) :: ts := by
  have hdrop : (c :: cs).dropWhile isPySpace = c :: cs := by
    rw [List.dropWhile_cons, if_neg (by simp [hc])]
  have htake : (c :: cs).takeWhile (fun x => !isPySpace x) =
      c :: cs.takeWhile (fun x => !isPySpace x) := by
    rw [List.takeWhile_cons, if_pos (by simp [hc])]
  simp only [splitMax2, hdrop, htake]
  split
  · simp_all
  · split
    · exact ⟨[], rfl⟩
    · split
      · exact ⟨_, rfl⟩
      · exact ⟨_, rfl⟩

/-- Helper: a non-empty stripped line splits into a non-empty head token. -/
theorem splitMax2_stripped (s : String) (h : pyStrip s ≠ "") :
    ∃ t1 ts, splitMax2 (pyStrip s) = t1 :: ts ∧ t1 ≠ "" := by
  obtain ⟨c, cs, hdata, hc⟩ := pyStrip_head s h
  have hmk : pyStrip s = ⟨c :: cs⟩ := eq_mk_of_data _ _ hdata
  obtain ⟨ts, hts⟩ := splitMax2_cons c cs hc
  refine ⟨_, ts, by rw [hmk, hts], ?_⟩
  simp [mk_eq_empty_iff]

/-- Helper for C5: every non-blank line is either parsed or warned about. -/
theorem parseDeviceList_counts : ∀ ls : List String,
    (parseDeviceList ls).1.length + (parseDeviceList ls).2.length =
      List.countP (fun l => pyStrip l != "") ls := by
  intro ls
  induction ls with
  | nil => simp [parseDeviceList]
  | cons l ls ih =>
    by_cases h : pyStrip l = ""
    · simp [parseDeviceList, h, List.countP_cons, ih]
    · by_cases h2 : (splitMax2 (pyStrip l)).length ≥ 2
      · simp only [parseDeviceList, h, if_neg h, if_pos h2, List.countP_cons,
          List.length_cons]
        simp [h, ih]
        omega
      · simp only [parseDeviceList, h, if_neg h, if_neg h2, List.countP_cons,
          List.length_cons]
        simp [h, ih]
        omega

/-- Helper for C5: every parsed record carries a non-empty serial. -/
theorem parseDeviceList_serial : ∀ (ls : List String) (rec : DeviceRec),
    rec ∈ (parseDeviceList ls).1 → rec.serial ≠ "" := by
  intro ls
  induction ls with
  | nil => intro rec h; simp [parseDeviceList] at h
  | cons l ls ih =>
    intro rec h
    by_cases hb : pyStrip l = ""
    · simp [parseDeviceList, hb] at h
      exact ih rec h
    · by_cases h2 : (splitMax2 (pyStrip l)).length ≥ 2
      · simp [parseDeviceList, hb, h2] at h
        rcases h with h | h
        · obtain ⟨t1, ts, hsp, ht1⟩ := splitMax2_stripped l hb
          rw [h]
          simpa [hsp] using ht1
        · exact ih rec h
      · simp [parseDeviceList, hb, h2] at h
        exact ih rec h

/-- Helper for C5: well-formed listings produce no warnings. -/
theorem parseDeviceList_wellformed : ∀ ls : List String,
    (∀ l ∈ ls, pyStrip l ≠ "" → (splitMax2 (pyStrip l)).length ≥ 2) →
    (parseDeviceList ls).2 = [] := by
  intro ls
  induction ls with
  | nil => intro _; simp [parseDeviceList]
  | cons l ls ih =>
    intro h
    have hrest : ∀ l2 ∈ ls, pyStrip l2 ≠ "" → (splitMax2 (pyStrip l2)).length ≥ 2 :=
      fun l2 hm => h l2 (by simp [hm])
    by_cases hb : pyStrip l = ""
    · simp [parseDeviceList, hb, ih hrest]
    · have h2 := h l (by simp) hb
      simp [parseDeviceList, hb, h2, ih hrest]

/-- C5: the device-list parser strips the raw text, splits it into lines,
drops the header when present, skips blank lines, splits every other line
into at most three fields, parses each line with at least two fields into a
record with a non-empty serial, and reports the remaining lines as warnings
without aborting; on well-formed listings every non-blank data line yields
exactly one record. -/
theorem C5_device_list_parse (raw : String) :
    ((parseDeviceList (deviceLines raw)).1.length +
       (parseDeviceList (deviceLines raw)).2.length =
     List.countP (fun l => pyStrip l != "") (deviceLines raw)) ∧
    (∀ rec ∈ (parseDeviceList (deviceLines raw)).1, rec.serial ≠ "") ∧
    ((∀ l ∈ deviceLines raw, pyStrip l ≠ "" → (splitMax2 (pyStrip l)).length ≥ 2) →
      (parseDeviceList (deviceLines raw)).2 = [] ∧
      (parseDeviceList (deviceLines raw)).1.length =
        List.countP (fun l => pyStrip l != "") (deviceLines raw)) ∧
    (raw ≠ "" →
      list_devices true ⟨some raw, "", 0⟩ = (parseDeviceList (deviceLines raw)).1) := by
  refine ⟨parseDeviceList_counts _, parseDeviceList_serial _, fun h => ⟨?_, ?_⟩, fun h => ?_⟩
  · exact parseDeviceList_wellformed _ h
  · have hc := parseDeviceList_counts (deviceLines raw)
    rw [parseDeviceList_wellformed _ h] at hc
    simpa using hc
  · simp [list_devices, RunResult.out, h]

/-- C5 witness: the spec's example listing, evaluated, plus the theorem
applied to it. -/
theorem C5_device_list_parse_witness :
    (parseDeviceList (deviceLines
        "List of devices attached\nemulator-5554\tdevice\tproduct:sdk model:sdk device:generic\n") =
      ([⟨"emulator-5554", "device", "product:sdk model:sdk device:generic"⟩], [])) ∧
    (((parseDeviceList (deviceLines
          "List of devices attached\nemulator-5554\tdevice\tproduct:sdk model:sdk device:generic\n")).1.length +
        (parseDeviceList (deviceLines
          "List of devices attached\nemulator-5554\tdevice\tproduct:sdk model:sdk device:generic\n")).2.length =
      List.countP (fun l => pyStrip l != "")
        (deviceLines
          "List of devices attached\nemulator-5554\tdevice\tproduct:sdk model:sdk device:generic\n")) ∧
     (∀ rec ∈ (parseDeviceList (deviceLines
          "List of devices attached\nemulator-5554\tdevice\tproduct:sdk model:sdk device:generic\n")).1,
        rec.serial ≠ "") ∧
     ((∀ l ∈ deviceLines
          "List of devices attached\nemulator-5554\tdevice\tproduct:sdk model:sdk device:generic\n",
        pyStrip l ≠ "" → (splitMax2 (pyStrip l)).length ≥ 2) →
       (parseDeviceList (deviceLines
          "List of devices attached\nemulator-5554\tdevice\tproduct:sdk model:sdk device:generic\n")).2 = [] ∧
       (parseDeviceList (deviceLines
          "List of devices attached\nemulator-5554\tdevice\tproduct:sdk model:sdk device:generic\n")).1.length =
         List.countP (fun l => pyStrip l != "")
           (deviceLines
             "List of devices attached\nemulator-5554\tdevice\tproduct:sdk model:sdk device:generic\n")) ∧
     (("List of devices attached\nemulator-5554\tdevice\tproduct:sdk model:sdk device:generic\n" : String) ≠ "" →
       list_devices true
           ⟨some "List of devices attached\nemulator-5554\tdevice\tproduct:sdk model:sdk device:generic\n", "", 0⟩ =
         (parseDeviceList (deviceLines
           "List of devices attached\nemulator-5554\tdevice\tproduct:sdk model:sdk device:generic\n")).1)) :=
  ⟨by decide,
   C5_device_list_parse
     "List of devices attached\nemulator-5554\tdevice\tproduct:sdk model:sdk device:generic\n"⟩

/-! ## C9: battery parsing -/

/-- Modelled from the spec words, for comparison only: the whole suffix of the
stripped line after the six-character `level:` marker, stripped, with a
percent sign appended. -/
def specBatterySuffix (line : String) : String :=
  pyStrip ⟨(pyStrip line).data.drop 6⟩ ++ "%"

/-- C9 counterexample: on the line `level: 8:7` the code takes the field
between the first and second colon, yielding `8%`, while the suffix rule of
the claim yields `8:7%`. -/
theorem C9_battery_counterexample :
    batteryScan (pySplitlines "level: 8:7") = some "8%" ∧
    specBatterySuffix "level: 8:7" = "8:7%" ∧
    ("8%" : String) ≠ "8:7%" := by
  exact ⟨by decide, by decide, by decide⟩

/-- Helper for C9: without a level line the scan returns nothing. -/
theorem batteryScan_none : ∀ ls : List String,
    (∀ l ∈ ls, startsWith "level:" (pyStrip l) = false) → batteryScan ls = none := by
  intro ls
  induction ls with
  | nil => intro _; rfl
  | cons l ls ih =>
    intro h
    have hl := h l (by simp)
    simp [batteryScan, hl, ih (fun l2 hm => h l2 (by simp [hm]))]

/-- Helper for C9: the first level line determines the result. -/
theorem batteryScan_first : ∀ (pre : List String) (l : String) (post : List String),
    (∀ l2 ∈ pre, startsWith "level:" (pyStrip l2) = false) →
    startsWith "level:" (pyStrip l) = true →
    batteryScan (pre ++ l :: post) =
      some (pyStrip ((pySplitChar ':' (pyStrip l)).getD 1 "") ++ "%") := by
  intro pre
  induction pre with
  | nil => intro l post _ hl; simp [batteryScan, hl]
  | cons a pre ih =>
    intro l post h hl
    have ha := h a (by simp)
    simp [batteryScan, ha, ih l post (fun l2 hm => h l2 (by simp [hm])) hl]

/-- C9 (amended): the battery level comes from the first stripped dump line
beginning with `level:`; the value recorded is the text between the first
and the second colon of that line (Python `split(":")[1]`), stripped, with a
percent sign appended — equal to the whole-suffix rule of the claim only
when the value contains no further colon; later level lines are ignored,
and without any level line the field keeps the `N/A` sentinel with no error
reported. -/
theorem C9_battery_amended (dump : String) :
    ((∀ l ∈ pySplitlines dump, startsWith "level:" (pyStrip l) = false) →
      batteryScan (pySplitlines dump) = none) ∧
    (∀ (pre : List String) (l : String) (post : List String),
      pySplitlines dump = pre ++ l :: post →
      (∀ l2 ∈ pre, startsWith "level:" (pyStrip l2) = false) →
      startsWith "level:" (pyStrip l) = true →
      batteryScan (pySplitlines dump) =
        some (pyStrip ((pySplitChar ':' (pyStrip l)).getD 1 "") ++ "%")) ∧
    (∀ (serial : String) (runner : List String → RunResult) (info : DeviceInfo),
      serial ≠ "" → get_device_info true serial runner = some info →
      info.battery_level =
        (if (runner (batteryCmd serial)).returncode = 0 ∧ (runner (batteryCmd serial)).out ≠ ""
         then (batteryScan (pySplitlines (runner (batteryCmd serial)).out)).getD "N/A"
         else "N/A")) := by
  refine ⟨batteryScan_none _, ?_, ?_⟩
  · intro pre l post hsplit hpre hl
    rw [hsplit]
    exact batteryScan_first pre l post hpre hl
  · intro serial runner info hs hinfo
    by_cases hmv : fetchProp runner serial "ro.product.model" = none ∧
        fetchProp runner serial "ro.build.version.release" = none
    · simp [get_device_info, hs, hmv] at hinfo
    · simp only [get_device_info, if_neg hs, if_neg hmv, Bool.not_true,
        Bool.false_eq_true, if_false] at hinfo
      rw [← Option.some.inj hinfo]

/-- C9 witness: a dump whose first level line is `  level: 87` yields `87%`,
by applying the amended theorem. -/
theorem C9_battery_amended_witness :
    (pySplitlines "foo\n  level: 87\nlevel: 99" =
        ["foo"] ++ "  level: 87" :: ["level: 99"] ∧
      (∀ l2 ∈ (["foo"] : List String), startsWith "level:" (pyStrip l2) = false) ∧
      startsWith "level:" (pyStrip "  level: 87") = true ∧
      pyStrip ((pySplitChar ':' (pyStrip "  level: 87")).getD 1 "") ++ "%" = "87%") ∧
    batteryScan (pySplitlines "foo\n  level: 87\nlevel: 99") =
      some (pyStrip ((pySplitChar ':' (pyStrip "  level: 87")).getD 1 "") ++ "%") :=
  ⟨⟨by decide, by decide, by decide, by decide⟩,
   (C9_battery_amended "foo\n  level: 87\nlevel: 99").2.1 ["foo"] "  level: 87" ["level: 99"]
     (by decide) (by decide) (by decide)⟩

/-! ## C7: aggregate failure policy -/

/-- Helper: whenever at least one essential probe succeeded, `get_device_info`
returns the populated record, whose serial, model and version fields are
determined by the probes. -/
theorem get_device_info_some (serial : String) (runner : List String → RunResult)
    (hs : serial ≠ "")
    (hmv : ¬(fetchProp runner serial "ro.product.model" = none ∧
        fetchProp runner serial "ro.build.version.release" = none)) :
    ∃ info, get_device_info true serial runner = some info ∧ info.serial = serial ∧
      info.model = (fetchProp runner serial "ro.product.model").getD "N/A" ∧
      info.version = (fetchProp runner serial "ro.build.version.release").getD "N/A" := by
  simp only [get_device_info, if_neg hs, if_neg hmv, Bool.not_true,
    Bool.false_eq_true, if_false]
  exact ⟨_, rfl, rfl, rfl, rfl⟩

/-- C7: with the tool available and a non-empty serial, `get_device_info`
returns null exactly when both the model and the Android-version probes
failed; when the model probe alone fails the call still returns a populated
partial record (model defaulted, version carried through), and every
returned record carries the requested serial. -/
theorem C7_info_null_iff (serial : String) (runner : List String → RunResult)
    (hs : serial ≠ "") :
    (get_device_info true serial runner = none ↔
      (fetchProp runner serial "ro.product.model" = none ∧
       fetchProp runner serial "ro.build.version.release" = none)) ∧
    (∀ v, fetchProp runner serial "ro.product.model" = none →
      fetchProp runner serial "ro.build.version.release" = some v →
      ∃ info, get_device_info true serial runner = some info ∧
        info.model = "N/A" ∧ info.version = v ∧ info.serial = serial) ∧
    (∀ info, get_device_info true serial runner = some info → info.serial = serial) := by
  refine ⟨⟨fun h => ?_, fun h => ?_⟩, fun v hm hv => ?_, fun info hinfo => ?_⟩
  · by_contra hmv
    obtain ⟨info0, h0, -, -, -⟩ := get_device_info_some serial runner hs hmv
    rw [h] at h0
    exact Option.noConfusion h0
  · simp [get_device_info, hs, h.1, h.2]
  · have hmv : ¬(fetchProp runner serial "ro.product.model" = none ∧
        fetchProp runner serial "ro.build.version.release" = none) := by
      simp [hv]
    obtain ⟨info0, h0, hser, hmod, hver⟩ := get_device_info_some serial runner hs hmv
    refine ⟨info0, h0, ?_, ?_, hser⟩
    · rw [hmod, hm]
      rfl
    · rw [hver, hv]
      rfl
  · by_cases hmv : fetchProp runner serial "ro.product.model" = none ∧
        fetchProp runner serial "ro.build.version.release" = none
    · simp [get_device_info, hs, hmv] at hinfo
    · obtain ⟨info0, h0, hser, -, -⟩ := get_device_info_some serial runner hs hmv
      rw [h0] at hinfo
      exact (Option.some.inj hinfo) ▸ hser

/-- Concrete probe results for the C7 witness: only the Android-version probe
succeeds. -/
def versionOnlyRunner : List String → RunResult := fun cmd =>
  if cmd = getpropCmd "V1" "ro.build.version.release" then ⟨some "14", "", 0⟩
  else ⟨none, "error", 1⟩

/-- C7 witness: a concrete application where the model probe fails and the
version probe succeeds. -/
theorem C7_info_null_iff_witness :
    (("V1" : String) ≠ "") ∧
    ((get_device_info true "V1" versionOnlyRunner = none ↔
      (fetchProp versionOnlyRunner "V1" "ro.product.model" = none ∧
       fetchProp versionOnlyRunner "V1" "ro.build.version.release" = none)) ∧
     (∀ v, fetchProp versionOnlyRunner "V1" "ro.product.model" = none →
       fetchProp versionOnlyRunner "V1" "ro.build.version.release" = some v →
       ∃ info, get_device_info true "V1" versionOnlyRunner = some info ∧
         info.model = "N/A" ∧ info.version = v ∧ info.serial = "V1") ∧
     (∀ info, get_device_info true "V1" versionOnlyRunner = some info →
       info.serial = "V1")) :=
  ⟨by decide, C7_info_null_iff "V1" versionOnlyRunner (by decide)⟩

/-! ## C6: display-name selection -/

/-- Helper for C6: the accumulator form of the candidate loop computes the
first qualifying candidate, so later candidates are never considered. -/
theorem bestLoop_eq_firstQualifying (modelOpt : Option String)
    (fetch : String → Option String) :
    ∀ (props : List String) (best : Option String),
    bestLoop modelOpt fetch props best =
      (match best with
       | some b => some b
       | none => firstQualifying modelOpt fetch props) := by
  intro props
  induction props with
  | nil => intro best; cases best <;> simp [bestLoop, firstQualifying]
  | cons p ps ih =>
    intro best
    by_cases hskip : p ∈ skipProps
    · cases best <;> simp [bestLoop, firstQualifying, hskip, ih]
    · cases hf : fetch p with
      | none => cases best <;> simp [bestLoop, firstQualifying, hskip, hf, ih]
      | some v =>
        cases best with
        | some b => simp [bestLoop, firstQualifying, hskip, hf, ih]
        | none =>
          by_cases hq : qualifies modelOpt p v = true <;>
            simp [bestLoop, firstQualifying, hskip, hf, hq, ih]

/-- Helper for C6: a fetched property value is never the empty string. -/
theorem fetchProp_ne_empty (runner : List String → RunResult) (serial prop v : String)
    (h : fetchProp runner serial prop = some v) : v ≠ "" := by
  simp only [fetchProp] at h
  split at h
  · split at h
    · rename_i hv
      exact (Option.some.inj h) ▸ hv
    · exact Option.noConfusion h
  · exact Option.noConfusion h

/-- Helper for C6: the first qualifying candidate is never empty. -/
theorem firstQualifying_ne_empty (modelOpt : Option String)
    (runner : List String → RunResult) (serial : String) :
    ∀ (props : List String) (b : String),
    firstQualifying modelOpt (fetchProp runner serial) props = some b → b ≠ "" := by
  intro props
  induction props with
  | nil => intro b h; exact Option.noConfusion h
  | cons p ps ih =>
    intro b h
    by_cases hskip : skipProps.contains p = true
    · rw [firstQualifying, if_pos hskip] at h
      exact ih b h
    · cases hf : fetchProp runner serial p with
      | none =>
        simp only [firstQualifying, if_neg hskip, hf] at h
        exact ih b h
      | some v =>
        simp only [firstQualifying, if_neg hskip, hf] at h
        by_cases hq : qualifies modelOpt p v = true
        · rw [if_pos hq] at h
          exact (Option.some.inj h) ▸ fetchProp_ne_empty runner serial p v hf
        · rw [if_neg hq] at h
          exact ih b h

/-- Helper for C6: the display-name field of a returned record, expressed
through the first qualifying candidate. -/
theorem get_device_info_display (serial : String) (runner : List String → RunResult)
    (hs : serial ≠ "")
    (hmv : ¬(fetchProp runner serial "ro.product.model" = none ∧
        fetchProp runner serial "ro.build.version.release" = none)) :
    ∃ info, get_device_info true serial runner = some info ∧
      info.display_name =
        (match firstQualifying (fetchProp runner serial "ro.product.model")
            (fetchProp runner serial) prop_names_to_try with
         | some b =>
           if b ≠ "N/A" ∧ b ≠ "Error" ∧ b ≠ "" then b
           else if (fetchProp runner serial "ro.product.model").getD "N/A" ≠ "N/A" ∧
               (fetchProp runner serial "ro.product.model").getD "N/A" ≠ "Error" then
             (fetchProp runner serial "ro.product.model").getD "N/A"
           else serial
         | none =>
           if (fetchProp runner serial "ro.product.model").getD "N/A" ≠ "N/A" ∧
               (fetchProp runner serial "ro.product.model").getD "N/A" ≠ "Error" then
             (fetchProp runner serial "ro.product.model").getD "N/A"
           else serial) := by
  simp only [get_device_info, if_neg hs, if_neg hmv, Bool.not_true,
    Bool.false_eq_true, if_false, bestLoop_eq_firstQualifying]
  exact ⟨_, rfl, rfl⟩

/-- Concrete probe results for the C6 counterexample: the model probe returns
SM-G960F, the marketname probe returns the literal text Error, every other
command fails. -/
def sentinelRunner : List String → RunResult := fun cmd =>
  if cmd = getpropCmd "S1" "ro.product.model" then ⟨some "SM-G960F", "", 0⟩
  else if cmd = getpropCmd "S1" "ro.product.marketname" then ⟨some "Error", "", 0⟩
  else ⟨none, "error", 1⟩

/-- C6 counterexample: the first qualifying candidate value is the literal
text `Error` (non-empty and different from the model), so the claim makes it
the display name, but the finalization step discards it as a reserved
sentinel and falls back to the model. -/
theorem C6_display_name_counterexample :
    firstQualifying (fetchProp sentinelRunner "S1" "ro.product.model")
      (fetchProp sentinelRunner "S1") prop_names_to_try = some "Error" ∧
    get_device_info true "S1" sentinelRunner =
      some ⟨"S1", "SM-G960F", "N/A", "SM-G960F", "N/A"⟩ ∧
    ("SM-G960F" : String) ≠ "Error" := by
  exact ⟨by decide, by decide, by decide⟩

/-- C6 (amended): the first candidate in priority order whose fetched value is
non-empty and either differs from the fetched model or comes from a
marketname key is selected (first-match-wins, the accumulator loop equals
the first-match rule), and it becomes the display name provided it is not
one of the reserved sentinel texts `N/A` / `Error`; a selected sentinel
value is discarded at finalization in favour of the fallback; with no
qualifying candidate the display name falls back to the fetched model when
that is not itself a sentinel text, and to the serial when the model probe
failed. -/
theorem C6_display_name_amended (serial : String) (runner : List String → RunResult)
    (hs : serial ≠ "") :
    (bestLoop (fetchProp runner serial "ro.product.model") (fetchProp runner serial)
        prop_names_to_try none =
      firstQualifying (fetchProp runner serial "ro.product.model")
        (fetchProp runner serial) prop_names_to_try) ∧
    (∀ b info,
      firstQualifying (fetchProp runner serial "ro.product.model")
        (fetchProp runner serial) prop_names_to_try = some b →
      b ≠ "N/A" → b ≠ "Error" →
      get_device_info true serial runner = some info → info.display_name = b) ∧
    (∀ b m info,
      firstQualifying (fetchProp runner serial "ro.product.model")
        (fetchProp runner serial) prop_names_to_try = some b →
      (b = "N/A" ∨ b = "Error") →
      fetchProp runner serial "ro.product.model" = some m → m ≠ "N/A" → m ≠ "Error" →
      get_device_info true serial runner = some info → info.display_name = m) ∧
    (∀ m info,
      firstQualifying (fetchProp runner serial "ro.product.model")
        (fetchProp runner serial) prop_names_to_try = none →
      fetchProp runner serial "ro.product.model" = some m → m ≠ "N/A" → m ≠ "Error" →
      get_device_info true serial runner = some info → info.display_name = m) ∧
    (∀ info,
      firstQualifying (fetchProp runner serial "ro.product.model")
        (fetchProp runner serial) prop_names_to_try = none →
      fetchProp runner serial "ro.product.model" = none →
      get_device_info true serial runner = some info → info.display_name = serial) := by
  refine ⟨bestLoop_eq_firstQualifying _ _ _ none, ?_, ?_, ?_, ?_⟩
  · intro b info hb hbna hbe hinfo
    by_cases hmv : fetchProp runner serial "ro.product.model" = none ∧
        fetchProp runner serial "ro.build.version.release" = none
    · simp [get_device_info, hs, hmv] at hinfo
    · obtain ⟨info0, h0, hdisp⟩ := get_device_info_display serial runner hs hmv
      rw [h0] at hinfo
      obtain rfl : info0 = info := Option.some.inj hinfo
      have hbne : b ≠ "" := firstQualifying_ne_empty _ runner serial _ b hb
      rw [hdisp, hb]
      simp [hbna, hbe, hbne]
  · intro b m info hb hbsent hm hmna hme hinfo
    by_cases hmv : fetchProp runner serial "ro.product.model" = none ∧
        fetchProp runner serial "ro.build.version.release" = none
    · simp [get_device_info, hs, hmv] at hinfo
    · obtain ⟨info0, h0, hdisp⟩ := get_device_info_display serial runner hs hmv
      rw [h0] at hinfo
      obtain rfl : info0 = info := Option.some.inj hinfo
      have hcond : ¬(b ≠ "N/A" ∧ b ≠ "Error" ∧ b ≠ "") := by
        rcases hbsent with h | h <;> simp [h]
      rw [hdisp, hb, hm]
      simp [hcond, hmna, hme]
  · intro m info hnone hm hmna hme hinfo
    by_cases hmv : fetchProp runner serial "ro.product.model" = none ∧
        fetchProp runner serial "ro.build.version.release" = none
    · simp [get_device_info, hs, hmv] at hinfo
    · obtain ⟨info0, h0, hdisp⟩ := get_device_info_display serial runner hs hmv
      rw [h0] at hinfo
      obtain rfl : info0 = info := Option.some.inj hinfo
      rw [hdisp, hnone, hm]
      simp [hmna, hme]
  · intro info hnone hm hinfo
    by_cases hmv : fetchProp runner serial "ro.product.model" = none ∧
        fetchProp runner serial "ro.build.version.release" = none
    · simp [get_device_info, hs, hmv] at hinfo
    · obtain ⟨info0, h0, hdisp⟩ := get_device_info_display serial runner hs hmv
      rw [h0] at hinfo
      obtain rfl : info0 = info := Option.some.inj hinfo
      rw [hdisp, hnone, hm]
      simp

/-- Concrete probe results realizing the spec example for the C6 witness:
model SM-G960F, marketname Galaxy S9, everything else failing. -/
def marketnameRunner : List String → RunResult := fun cmd =>
  if cmd = getpropCmd "G1" "ro.product.model" then ⟨some "SM-G960F", "", 0⟩
  else if cmd = getpropCmd "G1" "ro.product.marketname" then ⟨some "Galaxy S9", "", 0⟩
  else ⟨none, "error", 1⟩

/-- C6 witness: the marketname candidate Galaxy S9 wins over the model
SM-G960F, by applying the amended theorem. -/
theorem C6_display_name_amended_witness :
    (("G1" : String) ≠ "" ∧
      firstQualifying (fetchProp marketnameRunner "G1" "ro.product.model")
        (fetchProp marketnameRunner "G1") prop_names_to_try = some "Galaxy S9" ∧
      ("Galaxy S9" : String) ≠ "N/A" ∧ ("Galaxy S9" : String) ≠ "Error" ∧
      get_device_info true "G1" marketnameRunner =
        some ⟨"G1", "SM-G960F", "N/A", "Galaxy S9", "N/A"⟩) ∧
    (DeviceInfo.mk "G1" "SM-G960F" "N/A" "Galaxy S9" "N/A").display_name = "Galaxy S9" :=
  ⟨⟨by decide, by decide, by decide, by decide, by decide⟩,
   (C6_display_name_amended "G1" marketnameRunner (by decide)).2.1 "Galaxy S9"
     (DeviceInfo.mk "G1" "SM-G960F" "N/A" "Galaxy S9" "N/A")
     (by decide) (by decide) (by decide) (by decide)⟩

end AdbGripper
